import Mathlib

/-
  Verification of the ClubSphere backend's membership/registration lifecycle
  and cascading-deletion logic.

  Shallow embedding of the relevant route handlers:
    - routes/member.js   : membership status classifier, my-events tab
                           bucketing, registration cancellation
    - routes/payments.js : free/paid event registration, free/paid club
                           membership creation (+ the club-manager deletion
                           request handler concatenated in the same file)
    - routes/admin.js    : approve/reject club deletion (cascade delete)

  MongoDB documents become Lean structures; collections become lists in
  insertion order; findOne is List.find? (first match), deleteMany is
  List.filter, updateOne/deleteOne touch only the first match.  Because the
  stored data mixes string ids with ObjectId references, a stored id-valued
  field is modelled by `Mid`, which distinguishes the two representations
  (MongoDB equality never identifies a string with an ObjectId).
  JavaScript numbers used for fees are modelled by ℚ; millisecond
  timestamps by ℤ.
-/

namespace ClubSphere

/-- A MongoDB-stored id value: either the string form or an ObjectId
reference.  The two representations are distinct values to MongoDB's
query equality, even when they carry the same hex string. -/
inductive Mid where
  | str : String → Mid
  | oid : String → Mid
deriving DecidableEq, Repr

/-- The underlying hex string of a stored id value (JS `.toString()`). -/
def Mid.raw : Mid → String
  | .str s => s
  | .oid s => s

/-- Update the first element satisfying `p` (MongoDB `updateOne`). -/
def updateFirst (p : α → Bool) (f : α → α) : List α → List α
  | [] => []
  | x :: xs => if p x then f x :: xs else x :: updateFirst p f xs

/-- Remove the first element satisfying `p` (MongoDB `deleteOne`). -/
def eraseFirst (p : α → Bool) : List α → List α
  | [] => []
  | x :: xs => if p x then xs else x :: eraseFirst p xs

/-! ## member.js : membership status classifier (calculateMembershipStatus) -/

namespace Member

/-- Milliseconds in one day, the divisor `1000 * 60 * 60 * 24`. -/
def msPerDay : Int := 86400000

/-- `Math.ceil(a / b)` on integers for a positive divisor `b`
(the JS computation divides exactly and then takes the ceiling). -/
def ceilDiv (a b : Int) : Int := -((-a) / b)

/-- JS `membership.status || 'active'`: the empty string and a missing
field are falsy and default to `'active'`. -/
def jsOr (status : Option String) : String :=
  match status with
  | none => "active"
  | some s => if s = "" then "active" else s

/-- The stored fields of a membership that the classifier reads
(`joinDate` is also read in the source but never used). -/
structure MemRec where
  status : Option String
  expiryDate : Option Int
deriving DecidableEq, Repr

/-- routes/member.js `calculateMembershipStatus`, with `now` (taken from
`new Date()` in the source) made an explicit input.  Timestamps are epoch
milliseconds. -/
def calculateMembershipStatus (m : Option MemRec) (now : Int) : String :=
  match m with
  | none => "expired"
  | some mem =>
    if mem.status = some "pending" then "pending"
    else if mem.status = some "expired" then "expired"
    else
      match mem.expiryDate with
      | some e =>
        let daysUntilExpiry := ceilDiv (e - now) msPerDay
        if daysUntilExpiry < 0 then "expired"
        else if daysUntilExpiry ≤ 1 then "renew_soon"
        else jsOr mem.status
      | none => jsOr mem.status

/-! ## member.js : upcoming/past bucketing and registration cancellation -/

/-- A JS `Date` value split into its local calendar day index and the
milliseconds elapsed since that day's midnight.  `new Date(getFullYear(),
getMonth(), getDate())` is then the same value with `msOfDay` zeroed, and
JS `<` on dates compares the total milliseconds. -/
structure DayTime where
  day : Int
  msOfDay : Int
deriving DecidableEq, Repr

/-- Epoch milliseconds of a `DayTime` (what JS date comparison compares). -/
def toMillis (d : DayTime) : Int := d.day * 86400000 + d.msOfDay

/-- `new Date(d.getFullYear(), d.getMonth(), d.getDate())`: truncate to
local midnight. -/
def dateOnly (d : DayTime) : DayTime := { day := d.day, msOfDay := 0 }

/-- GET /events (my events): `isPast = eventDateOnly < nowDateOnly`
(member.js lines 392-395), both sides truncated to the calendar date. -/
def myEventsIsPast (eventDate now : DayTime) : Bool :=
  decide (toMillis (dateOnly eventDate) < toMillis (dateOnly now))

/-- GET /events (my events): `isTodayOrFuture = eventDateOnly >= nowDateOnly`. -/
def myEventsIsTodayOrFuture (eventDate now : DayTime) : Bool :=
  decide (toMillis (dateOnly now) ≤ toMillis (dateOnly eventDate))

/-- DELETE /events/:registrationId/cancel past-event test:
`new Date(event.date) < new Date()` (member.js line 519) — full
timestamps, no truncation. -/
def cancelPastCheck (eventDate now : DayTime) : Bool :=
  decide (toMillis eventDate < toMillis now)

/-- An event document as read by member.js (only the fields the
cancellation handler consults). -/
structure Event where
  id : String
  date : Option DayTime
deriving DecidableEq, Repr

/-- A registration document as read and written by member.js. -/
structure Registration where
  id : String
  userId : String
  eventId : Option String
  status : Option String
  cancelledAt : Option DayTime
  updatedAt : Option DayTime
deriving DecidableEq, Repr

/-- The collections member.js's cancellation handler touches. -/
structure DB where
  events : List Event
  registrations : List Registration
deriving DecidableEq, Repr

/-- The distinct failure responses of the cancellation handler. -/
inductive CancelErr where
  | notFound
  | alreadyCancelled
  | pastEvent
deriving DecidableEq, Repr

/-- DELETE /events/:registrationId/cancel (member.js lines 485-542).
Looks up the caller's registration, rejects an already-cancelled one,
rejects when the underlying event's date is strictly before `now`
(full-timestamp comparison), and otherwise marks the registration
cancelled with a cancellation timestamp.  The update filter in the
source matches on `_id` only. -/
def cancelRegistration (db : DB) (uid rid : String) (now : DayTime) :
    Except CancelErr Unit × DB :=
  match db.registrations.find? (fun r => r.id == rid && r.userId == uid) with
  | none => (.error .notFound, db)
  | some reg =>
    if reg.status == some "cancelled" then (.error .alreadyCancelled, db)
    else
      let isPast : Bool :=
        match reg.eventId with
        | none => false
        | some eid =>
          if eid = "" then false
          else
            match db.events.find? (fun e => e.id == eid) with
            | none => false
            | some ev =>
              match ev.date with
              | none => false
              | some d => cancelPastCheck d now
      if isPast then (.error .pastEvent, db)
      else
        (.ok (),
          { db with
            registrations :=
              updateFirst (fun r => r.id == rid)
                (fun r => { r with status := some "cancelled",
                                   cancelledAt := some now, updatedAt := some now })
                db.registrations })

end Member

/-! ## payments.js : free/paid event registration and club membership -/

namespace Payments

/-- A JS `Date` as calendar fields: `getFullYear()`, `getMonth()`
(0-based, 0 = January) and `getDate()` (1-based day of month).  This is
the view the membership-expiry computation manipulates. -/
structure JDate where
  year : Int
  month : Int
  day : Int
deriving DecidableEq, Repr

/-- Gregorian leap-year rule (as implemented by JS `Date`). -/
def isLeapYear (y : Int) : Bool :=
  (y % 4 == 0 && y % 100 != 0) || y % 400 == 0

/-- Days in month `m` (0-based) of year `y`. -/
def daysInMonth (y m : Int) : Int :=
  if m = 1 then (if isLeapYear y then 29 else 28)
  else if m = 3 || m = 5 || m = 8 || m = 10 then 30
  else 31

/-- `expiryDate.setMonth(expiryDate.getMonth() + 1)` (payments.js lines
543-546): JS advances the month field by one (carrying into the year from
December) and keeps the day of month; a day past the end of the target
month rolls over into the following month.  For day ≤ 31 at most one
extra carry can occur. -/
def addOneMonthJS (d : JDate) : JDate :=
  let y1 := d.year + (if d.month = 11 then 1 else 0)
  let m1 := if d.month = 11 then 0 else d.month + 1
  if d.day ≤ daysInMonth y1 m1 then ⟨y1, m1, d.day⟩
  else
    let y2 := y1 + (if m1 = 11 then 1 else 0)
    let m2 := if m1 = 11 then 0 else m1 + 1
    ⟨y2, m2, d.day - daysInMonth y1 m1⟩

/-- A club document as payments.js reads it. -/
structure Club where
  id : String
  name : String
  status : Option String
  fee : Option ℚ
  memberCount : Int
deriving DecidableEq, Repr

/-- An event document as payments.js reads it (the three legacy fee
representations `fee` / `price` / `type`+`amount` are all present). -/
structure Event where
  id : String
  status : Option String
  fee : Option ℚ
  price : Option ℚ
  type : Option String
  amount : Option ℚ
  maxAttendees : Option Nat
deriving DecidableEq, Repr

/-- A membership document as payments.js writes it. -/
structure Membership where
  id : String
  userId : String
  clubId : Mid
  status : Option String
  paymentStatus : String
  paymentIntentId : Option String
  amount : ℚ
  membershipFee : ℚ
  serviceFee : ℚ
  joinDate : JDate
  expiryDate : Option JDate
  createdAt : JDate
  updatedAt : JDate
deriving DecidableEq, Repr

/-- A registration document as payments.js writes it. -/
structure Registration where
  id : String
  userId : String
  eventId : String
  status : String
  paymentStatus : String
  paymentIntentId : Option String
  amount : ℚ
  eventFee : ℚ
  serviceFee : ℚ
  registrationDate : JDate
  createdAt : JDate
  updatedAt : JDate
deriving DecidableEq, Repr

/-- The collections payments.js touches. -/
structure DB where
  clubs : List Club
  events : List Event
  memberships : List Membership
  registrations : List Registration
deriving DecidableEq, Repr

/-- The distinct failure responses of the payments.js handlers. -/
inductive PErr where
  | missingId
  | eventNotFound
  | eventCancelled
  | alreadyRegistered
  | eventFull
  | eventFree
  | eventNotFree
  | clubNotFound
  | clubNotAvailable
  | alreadyMember
  | clubFree
  | clubNotFree
  | paymentNotCompleted
  | intentMismatch
  | membershipExists
deriving DecidableEq, Repr

/-- `calculateServiceFee`: 10% of the fee, minimum 1.50. -/
def calculateServiceFee (fee : ℚ) : ℚ := max (fee * (1 / 10)) (3 / 2)

/-- The event-fee fallback chain (payments.js lines 115-123 and 307-314):
`event.fee`, else `event.price / 100`, else `event.amount` when
`event.type === 'Paid'` and `amount` is truthy, else 0. -/
def effectiveEventFee (e : Event) : ℚ :=
  match e.fee with
  | some f => f
  | none =>
    match e.price with
    | some p => p / 100
    | none =>
      match e.type, e.amount with
      | some "Paid", some a => if a = 0 then 0 else a
      | _, _ => 0

/-- `club.fee || 0`. -/
def clubFee (c : Club) : ℚ := c.fee.getD 0

/-- `club.status && club.status !== 'active'`: the club blocks joining
only when a truthy status other than `'active'` is stored. -/
def clubUnavailable (c : Club) : Bool :=
  match c.status with
  | none => false
  | some s => s ≠ "" && s ≠ "active"

/-- Count of `status: 'registered'` registrations for an event
(`countDocuments` in the capacity checks). -/
def countRegistered (db : DB) (eventId : String) : Nat :=
  (db.registrations.filter (fun r => r.eventId == eventId && r.status == "registered")).length

/-- `if (event.maxAttendees) { ... currentAttendees >= event.maxAttendees }`:
the capacity gate fires only when `maxAttendees` is present and nonzero
(0, null and a missing field are all falsy) and the current registered
count has reached it. -/
def capacityFull (db : DB) (event : Event) (eventId : String) : Bool :=
  match event.maxAttendees with
  | none => false
  | some n => if n = 0 then false else decide (countRegistered db eventId ≥ n)

/-- POST /payments/register-free (payments.js lines 280-369): free event
registration.  Check order from the source: event exists → not cancelled
→ fee is zero → no duplicate `registered` registration → capacity →
insert. -/
def registerFree (db : DB) (eventId uid newId : String) (now : JDate) :
    Except PErr String × DB :=
  if eventId = "" then (.error .missingId, db)
  else
    match db.events.find? (fun e => e.id == eventId) with
    | none => (.error .eventNotFound, db)
    | some event =>
      if event.status == some "cancelled" then (.error .eventCancelled, db)
      else if 0 < effectiveEventFee event then (.error .eventNotFree, db)
      else
        match db.registrations.find?
            (fun r => r.userId == uid && r.eventId == eventId && r.status == "registered") with
        | some _ => (.error .alreadyRegistered, db)
        | none =>
          if capacityFull db event eventId then (.error .eventFull, db)
          else
            (.ok newId,
              { db with
                registrations := db.registrations ++
                  [{ id := newId, userId := uid, eventId := eventId,
                     status := "registered", paymentStatus := "free",
                     paymentIntentId := none, amount := 0, eventFee := 0,
                     serviceFee := 0, registrationDate := now,
                     createdAt := now, updatedAt := now }] })

/-- The metadata payments.js attaches to an event payment intent. -/
structure IntentReq where
  eventId : String
  userId : String
  eventFee : ℚ
  serviceFee : ℚ
  totalAmount : ℚ
deriving DecidableEq, Repr

/-- POST /payments/create-intent (payments.js lines 50-166): validate and
compute the intent request handed to the payment bridge.  Check order
from the source: event exists → not cancelled → no duplicate registration
→ capacity → fee must be positive.  No record is created. -/
def createIntent (db : DB) (eventId uid : String) : Except PErr IntentReq :=
  if eventId = "" then .error .missingId
  else
    match db.events.find? (fun e => e.id == eventId) with
    | none => .error .eventNotFound
    | some event =>
      if event.status == some "cancelled" then .error .eventCancelled
      else
        match db.registrations.find?
            (fun r => r.userId == uid && r.eventId == eventId && r.status == "registered") with
        | some _ => .error .alreadyRegistered
        | none =>
          if capacityFull db event eventId then .error .eventFull
          else
            let f := effectiveEventFee event
            if f ≤ 0 then .error .eventFree
            else
              .ok { eventId := eventId, userId := uid, eventFee := f,
                    serviceFee := calculateServiceFee f,
                    totalAmount := f + calculateServiceFee f }

/-- A payment intent for a club membership as retrieved back from the
payment bridge at confirmation time: its status plus the metadata the
create-intent step stamped on it. -/
structure ClubIntent where
  status : String
  clubId : String
  userId : String
  type : String
  membershipFee : ℚ
  serviceFee : ℚ
  totalAmount : ℚ
deriving DecidableEq, Repr

/-- The duplicate-membership pre-check query: `status ∈ {active,pending}`
for this user and the string form of the club id. -/
def dupMemPred (uid cid : String) (m : Membership) : Bool :=
  m.userId == uid && m.clubId == Mid.str cid &&
    (m.status == some "active" || m.status == some "pending")

/-- POST /payments/club/confirm (payments.js lines 475-582): confirm a
club-membership payment.  The retrieved intent is a parameter (the
payment bridge is an external collaborator).  Check order from the
source: intent status `'succeeded'` → metadata (clubId, userId, type)
match → no existing active/pending membership → club exists → insert the
membership (active, paid, expiry one JS month ahead) and increment the
club's `memberCount`. -/
def clubConfirm (db : DB) (intent : ClubIntent) (pid cid uid newId : String)
    (now : JDate) : Except PErr String × DB :=
  if pid = "" || cid = "" then (.error .missingId, db)
  else if intent.status ≠ "succeeded" then (.error .paymentNotCompleted, db)
  else if intent.clubId ≠ cid || intent.userId ≠ uid || intent.type ≠ "club_membership" then
    (.error .intentMismatch, db)
  else
    match db.memberships.find? (dupMemPred uid cid) with
    | some _ => (.error .membershipExists, db)
    | none =>
      match db.clubs.find? (fun c => c.id == cid) with
      | none => (.error .clubNotFound, db)
      | some _ =>
        (.ok newId,
          { db with
            memberships := db.memberships ++
              [{ id := newId, userId := uid, clubId := .str cid,
                 status := some "active", paymentStatus := "paid",
                 paymentIntentId := some pid, amount := intent.totalAmount,
                 membershipFee := intent.membershipFee,
                 serviceFee := intent.serviceFee, joinDate := now,
                 expiryDate := some (addOneMonthJS now),
                 createdAt := now, updatedAt := now }],
            clubs := updateFirst (fun c => c.id == cid)
              (fun c => { c with memberCount := c.memberCount + 1 }) db.clubs })

/-- POST /payments/club/register-free (payments.js lines 585-666): free
club join.  Check order from the source: club exists → available → fee is
zero → no existing active/pending membership → insert the membership
(active, free, no expiry) and increment `memberCount`. -/
def clubRegisterFree (db : DB) (cid uid newId : String) (now : JDate) :
    Except PErr String × DB :=
  if cid = "" then (.error .missingId, db)
  else
    match db.clubs.find? (fun c => c.id == cid) with
    | none => (.error .clubNotFound, db)
    | some club =>
      if clubUnavailable club then (.error .clubNotAvailable, db)
      else if 0 < clubFee club then (.error .clubNotFree, db)
      else
        match db.memberships.find? (dupMemPred uid cid) with
        | some _ => (.error .alreadyMember, db)
        | none =>
          (.ok newId,
            { db with
              memberships := db.memberships ++
                [{ id := newId, userId := uid, clubId := .str cid,
                   status := some "active", paymentStatus := "free",
                   paymentIntentId := none, amount := 0, membershipFee := 0,
                   serviceFee := 0, joinDate := now, expiryDate := none,
                   createdAt := now, updatedAt := now }],
              clubs := updateFirst (fun c => c.id == cid)
                (fun c => { c with memberCount := c.memberCount + 1 }) db.clubs })

end Payments

/-! ## admin.js : club deletion lifecycle (request / approve / reject) -/

namespace Admin

/-- The `deletionRequest` subdocument stored on a club. -/
structure DeletionRequest where
  status : String
  requestedAt : Int
  requestedBy : String
deriving DecidableEq, Repr

/-- A club document with the fields the deletion lifecycle reads or
writes (timestamps as epoch milliseconds). -/
structure Club where
  id : String
  name : String
  description : String
  category : String
  fee : ℚ
  managerEmail : String
  status : Option String
  memberCount : Int
  deletionRequest : Option DeletionRequest
  createdAt : Int
  updatedAt : Int
deriving DecidableEq, Repr

/-- An event document as the cascade delete matches it: the club
reference may be the string id, an ObjectId reference, or only the
denormalized club name. -/
structure Event where
  id : String
  clubId : Option Mid
  clubName : Option String
deriving DecidableEq, Repr

/-- A registration document as the cascade delete matches it: the event
reference may be stored in string or ObjectId form. -/
structure Registration where
  id : String
  userId : String
  eventId : Mid
deriving DecidableEq, Repr

/-- A membership document as the cascade delete matches it. -/
structure Membership where
  id : String
  userId : String
  clubId : Mid
  status : Option String
deriving DecidableEq, Repr

/-- The collections the deletion lifecycle touches. -/
structure DB where
  clubs : List Club
  events : List Event
  registrations : List Registration
  memberships : List Membership
deriving DecidableEq, Repr

/-- The distinct failure responses of the deletion-lifecycle handlers. -/
inductive AErr where
  | clubNotFound
  | noPendingRequest
  | duplicateRequest
deriving DecidableEq, Repr

/-- The three-way event match of the cascade delete (admin.js lines
585-591 and 611-617): `clubId` equal to the string id, `clubId` equal to
the ObjectId reference, or `clubName` equal to the club's name. -/
def eventMatchesClub (cid clubName : String) (e : Event) : Bool :=
  e.clubId == some (Mid.str cid) || e.clubId == some (Mid.oid cid) ||
    e.clubName == some clubName

/-- The registration match of the cascade delete (admin.js lines
600-605): `eventId` in the deleted events' ids, where the `$or` covers
the string form and the ObjectId form — together, any stored
representation whose underlying id is in the list. -/
def regRefsEvent (ids : List String) (r : Registration) : Bool :=
  ids.contains r.eventId.raw

/-- PUT /admin/clubs/:id/approve-deletion (admin.js lines 563-637):
cascade-delete a club with a pending deletion request.  Order from the
source: resolve the club's events (three-way match) → delete their
registrations (both id forms; skipped when no events matched) → delete
the events → delete memberships matching the club's **string** id only →
delete the club document (first match, as `deleteOne`). -/
def approveDeletion (db : DB) (cid : String) : Except AErr Unit × DB :=
  match db.clubs.find? (fun c => c.id == cid) with
  | none => (.error .clubNotFound, db)
  | some club =>
    match club.deletionRequest with
    | none => (.error .noPendingRequest, db)
    | some dr =>
      if dr.status ≠ "pending" then (.error .noPendingRequest, db)
      else
        let eventsToDelete := db.events.filter (eventMatchesClub cid club.name)
        let eventIds := eventsToDelete.map (·.id)
        let regs' :=
          if eventIds.length > 0 then
            db.registrations.filter (fun r => !regRefsEvent eventIds r)
          else db.registrations
        let events' := db.events.filter (fun e => !eventMatchesClub cid club.name e)
        let mems' := db.memberships.filter (fun m => !(m.clubId == Mid.str cid))
        let clubs' := eraseFirst (fun c => c.id == cid) db.clubs
        (.ok (), { clubs := clubs', events := events',
                   registrations := regs', memberships := mems' })

/-- PUT /admin/clubs/:id/reject-deletion (admin.js lines 640-674):
`$unset` the `deletionRequest` field and `$set` a fresh `updatedAt` on
the club; nothing else is touched. -/
def rejectDeletion (db : DB) (cid : String) (now : Int) : Except AErr Unit × DB :=
  match db.clubs.find? (fun c => c.id == cid) with
  | none => (.error .clubNotFound, db)
  | some club =>
    match club.deletionRequest with
    | none => (.error .noPendingRequest, db)
    | some dr =>
      if dr.status ≠ "pending" then (.error .noPendingRequest, db)
      else
        (.ok (),
          { db with
            clubs := updateFirst (fun c => c.id == cid)
              (fun c => { c with deletionRequest := none, updatedAt := now }) db.clubs })

/-- DELETE /manager/clubs/:id (manager routes in payments.js, lines
934-978): a manager files a deletion request for an owned club.  Blocked
only when a pending request already exists; otherwise stores a fresh
pending `deletionRequest` and refreshes `updatedAt`. -/
def requestDeletion (db : DB) (cid managerEmail : String) (now : Int) :
    Except AErr DeletionRequest × DB :=
  match db.clubs.find? (fun c => c.id == cid && c.managerEmail == managerEmail) with
  | none => (.error .clubNotFound, db)
  | some club =>
    if club.deletionRequest.any (fun dr => dr.status == "pending") then
      (.error .duplicateRequest, db)
    else
      let dr : DeletionRequest :=
        { status := "pending", requestedAt := now, requestedBy := managerEmail }
      (.ok dr,
        { db with
          clubs := updateFirst (fun c => c.id == cid)
            (fun c => { c with deletionRequest := some dr, updatedAt := now }) db.clubs })

end Admin

/-! ## Helper lemmas -/

theorem find?_append_cons {p : α → Bool} {pre post : List α} {x : α}
    (hpre : ∀ a ∈ pre, p a = false) (hx : p x = true) :
    (pre ++ x :: post).find? p = some x := by
  induction pre with
  | nil => simp [List.find?, hx]
  | cons a l ih =>
    have ha : p a = false := hpre a (by simp)
    simp only [List.cons_append, List.find?, ha]
    exact ih (fun b hb => hpre b (by simp [hb]))

theorem updateFirst_append_cons {p : α → Bool} {f : α → α} {pre post : List α} {x : α}
    (hpre : ∀ a ∈ pre, p a = false) (hx : p x = true) :
    updateFirst p f (pre ++ x :: post) = pre ++ f x :: post := by
  induction pre with
  | nil => simp [updateFirst, hx]
  | cons a l ih =>
    have ha : p a = false := hpre a (by simp)
    simp only [List.cons_append, updateFirst, ha, if_false, Bool.false_eq_true]
    exact congrArg (a :: ·) (ih (fun b hb => hpre b (by simp [hb])))

example : Member.calculateMembershipStatus (some ⟨some "pending", some 0⟩) 99 = "pending" := by
  decide

example : Member.calculateMembershipStatus (some ⟨some "active", some (-2 * 86400000)⟩) 0 =
    "expired" := by decide

example : Member.calculateMembershipStatus (some ⟨none, some (3 * 86400000)⟩) 0 = "active" := by
  decide

example : Payments.addOneMonthJS ⟨2025, 0, 15⟩ = ⟨2025, 1, 15⟩ := by decide
example : Payments.addOneMonthJS ⟨2025, 11, 31⟩ = ⟨2026, 0, 31⟩ := by decide
example : Payments.addOneMonthJS ⟨2024, 0, 31⟩ = ⟨2024, 2, 2⟩ := by decide

/-! ## C2 : the membership status classifier's bands -/

/-- C2 counterexample: a membership whose `expiryDate` lies one hour
(3 600 000 ms) strictly before `now` is classified `renew_soon`, not
`expired` — `Math.ceil` of the negative fractional day count gives 0,
which fails the source's `daysUntilExpiry < 0` test.  This refutes the
claim's clause that any `expiryDate < now` yields the `expired` band. -/
theorem c2_counterexample :
    (-3600000 : Int) < 0 ∧
    Member.calculateMembershipStatus (some ⟨some "active", some (-3600000)⟩) 0 = "renew_soon" ∧
    "renew_soon" ≠ "expired" := by
  refine ⟨by decide, by decide, by decide⟩

/-- C2 amended: for every membership and every `now`, the classifier
returns `pending` when the stored status is `pending`; else `expired`
when the stored status is `expired`; else, with `expiryDate` set, it
returns `expired` only once `expiryDate` is at least one whole day
(86 400 000 ms) before `now`; `renew_soon` when `expiryDate` lies in
`(now − 1 day, now + 1 day]` — including an expiry up to 24 hours in the
past; and otherwise (or with no `expiryDate`) the stored status,
defaulting to `active` when unset or empty. -/
theorem c2_classifier_amended (status : Option String) (eo : Option Int) (e now : Int) :
    (status = some "pending" →
      Member.calculateMembershipStatus (some ⟨status, eo⟩) now = "pending") ∧
    (status ≠ some "pending" → status = some "expired" →
      Member.calculateMembershipStatus (some ⟨status, eo⟩) now = "expired") ∧
    (status ≠ some "pending" → status ≠ some "expired" →
      (e ≤ now - Member.msPerDay →
        Member.calculateMembershipStatus (some ⟨status, some e⟩) now = "expired") ∧
      (now - Member.msPerDay < e → e ≤ now + Member.msPerDay →
        Member.calculateMembershipStatus (some ⟨status, some e⟩) now = "renew_soon") ∧
      (now + Member.msPerDay < e →
        Member.calculateMembershipStatus (some ⟨status, some e⟩) now = Member.jsOr status) ∧
      Member.calculateMembershipStatus (some ⟨status, none⟩) now = Member.jsOr status) := by
  refine ⟨?_, ?_, ?_⟩
  · intro h
    simp [Member.calculateMembershipStatus, h]
  · intro h1 h2
    simp [Member.calculateMembershipStatus, h1, h2]
  · intro h1 h2
    refine ⟨?_, ?_, ?_, ?_⟩
    · intro he
      have hc : Member.ceilDiv (e - now) Member.msPerDay < 0 := by
        simp only [Member.ceilDiv, Member.msPerDay] at *
        omega
      simp [Member.calculateMembershipStatus, h1, h2, hc]
    · intro hl hu
      have hc1 : ¬ Member.ceilDiv (e - now) Member.msPerDay < 0 := by
        simp only [Member.ceilDiv, Member.msPerDay] at *
        omega
      have hc2 : Member.ceilDiv (e - now) Member.msPerDay ≤ 1 := by
        simp only [Member.ceilDiv, Member.msPerDay] at *
        omega
      simp [Member.calculateMembershipStatus, h1, h2, hc1, hc2]
    · intro hg
      have hc1 : ¬ Member.ceilDiv (e - now) Member.msPerDay < 0 := by
        simp only [Member.ceilDiv, Member.msPerDay] at *
        omega
      have hc2 : ¬ Member.ceilDiv (e - now) Member.msPerDay ≤ 1 := by
        simp only [Member.ceilDiv, Member.msPerDay] at *
        omega
      simp [Member.calculateMembershipStatus, h1, h2, hc1, hc2]
    · simp [Member.calculateMembershipStatus, h1, h2]

/-- C2 amended, witnessed on a concrete input: a membership expired one
hour ago is classified `renew_soon`. -/
theorem c2_classifier_amended_witness :
    Member.calculateMembershipStatus (some ⟨some "active", some (-3600000)⟩) 0 = "renew_soon" :=
  ((c2_classifier_amended (some "active") none (-3600000) 0).2.2 (by decide)
    (by decide)).2.1 (by decide) (by decide)

/-! ## C6 : registration cancellation contract -/

/-- C6: for a registration owned by the caller whose event exists and
carries a date, cancellation fails with the already-cancelled conflict
when the stored status is `cancelled` (state unchanged), fails with the
past-event precondition failure when the event's date is strictly before
`now` (state unchanged), and otherwise marks exactly that registration
`cancelled` with cancellation and update timestamps. -/
theorem c6_cancel_contract (db : Member.DB) (uid rid : String) (now : Member.DayTime)
    (pre post : List Member.Registration) (reg : Member.Registration)
    (hsplit : db.registrations = pre ++ reg :: post)
    (hpre : ∀ r ∈ pre, r.id ≠ rid)
    (hid : reg.id = rid) (huid : reg.userId = uid)
    (eid : String) (ev : Member.Event) (d : Member.DayTime)
    (heid : reg.eventId = some eid) (heid0 : eid ≠ "")
    (hev : db.events.find? (fun e => e.id == eid) = some ev)
    (hdate : ev.date = some d) :
    (reg.status = some "cancelled" →
      Member.cancelRegistration db uid rid now = (.error .alreadyCancelled, db)) ∧
    (reg.status ≠ some "cancelled" → Member.toMillis d < Member.toMillis now →
      Member.cancelRegistration db uid rid now = (.error .pastEvent, db)) ∧
    (reg.status ≠ some "cancelled" → ¬ Member.toMillis d < Member.toMillis now →
      Member.cancelRegistration db uid rid now =
        (.ok (), { db with registrations := pre ++
          { reg with status := some "cancelled",
                     cancelledAt := some now, updatedAt := some now } :: post })) := by
  have hfind : db.registrations.find? (fun r => r.id == rid && r.userId == uid) = some reg := by
    rw [hsplit]
    exact find?_append_cons (fun a ha => by simp [hpre a ha]) (by simp [hid, huid])
  refine ⟨?_, ?_, ?_⟩
  · intro hs
    simp [Member.cancelRegistration, hfind, hs]
  · intro hs hpast
    simp [Member.cancelRegistration, hfind, hs, heid, heid0, hev, hdate,
      Member.cancelPastCheck, hpast]
  · intro hs hpast
    have hupd : updateFirst (fun r => r.id == rid)
        (fun r => { r with status := some "cancelled",
                           cancelledAt := some now, updatedAt := some now })
        db.registrations = pre ++
          { reg with status := some "cancelled",
                     cancelledAt := some now, updatedAt := some now } :: post := by
      rw [hsplit]
      exact updateFirst_append_cons (fun a ha => by simp [hpre a ha]) (by simp [hid])
    simp [Member.cancelRegistration, hfind, hs, heid, heid0, hev, hdate,
      Member.cancelPastCheck, hpast, hupd]

/-- A registered registration for the cancellation scenarios. -/
def reg6 : Member.Registration := ⟨"r1", "u1", some "e1", some "registered", none, none⟩

/-- An event dated five days after the scenario's `now`. -/
def ev6 : Member.Event := ⟨"e1", some ⟨105, 0⟩⟩

/-- One event and one registration for the cancellation scenarios. -/
def db6 : Member.DB := ⟨[ev6], [reg6]⟩

/-- C6 witnessed on a concrete input: cancelling a live registration for
an event five days ahead succeeds and stamps the record. -/
theorem c6_cancel_contract_witness :
    Member.cancelRegistration db6 "u1" "r1" ⟨100, 0⟩ =
      (.ok (), { db6 with registrations :=
        [{ reg6 with status := some "cancelled",
                     cancelledAt := some ⟨100, 0⟩, updatedAt := some ⟨100, 0⟩ }] }) :=
  (c6_cancel_contract db6 "u1" "r1" ⟨100, 0⟩ [] [] reg6 rfl (by simp) rfl rfl
    "e1" ev6 ⟨105, 0⟩ rfl (by decide) (by decide) rfl).2.2 (by decide) (by decide)

/-! ## C7 : date-only truncation in upcoming/past decisions -/

/-- An event at local midnight of day 100 for the truncation scenarios. -/
def ev7 : Member.Event := ⟨"e1", some ⟨100, 0⟩⟩

/-- A registered registration for the truncation scenarios. -/
def reg7 : Member.Registration := ⟨"r1", "u1", some "e1", some "registered", none, none⟩

/-- One event and one registration for the truncation scenarios. -/
def db7 : Member.DB := ⟨[ev7], [reg7]⟩

/-- C7 counterexample: an event at midnight of the current calendar day,
seen at 01:00 the same day, is still bucketed `upcoming` by the my-events
tab (truncated comparison), yet its cancellation is rejected as a past
event — the cancellation check compares full timestamps, refuting the
claim that both sites truncate and that such a registration stays
cancellable until midnight. -/
theorem c7_counterexample :
    Member.myEventsIsPast ⟨100, 0⟩ ⟨100, 3600000⟩ = false ∧
    Member.cancelRegistration db7 "u1" "r1" ⟨100, 3600000⟩ = (.error .pastEvent, db7) := by
  refine ⟨by decide, by rfl⟩

/-- C7 amended: the my-events tab classification truncates both the event
date and `now` to the calendar date (only the day fields are compared),
but the cancellation handler's past-event check compares full timestamps:
for a caller-owned, not-yet-cancelled registration whose event has a
date, cancellation is rejected as past exactly when the event's full
timestamp is strictly before `now`, so an event earlier on the current
calendar day is upcoming for the tabs yet no longer cancellable. -/
theorem c7_datecompare_amended (dte n : Member.DayTime)
    (db : Member.DB) (uid rid : String) (now : Member.DayTime) (reg : Member.Registration)
    (hfind : db.registrations.find? (fun r => r.id == rid && r.userId == uid) = some reg)
    (hs : reg.status ≠ some "cancelled")
    (eid : String) (ev : Member.Event) (d : Member.DayTime)
    (heid : reg.eventId = some eid) (heid0 : eid ≠ "")
    (hev : db.events.find? (fun e => e.id == eid) = some ev)
    (hdate : ev.date = some d) :
    Member.myEventsIsPast dte n = decide (dte.day < n.day) ∧
    Member.myEventsIsTodayOrFuture dte n = decide (n.day ≤ dte.day) ∧
    ((Member.cancelRegistration db uid rid now).1 = .error .pastEvent ↔
      Member.toMillis d < Member.toMillis now) := by
  refine ⟨?_, ?_, ?_⟩
  · simp only [Member.myEventsIsPast, Member.dateOnly, Member.toMillis]
    rw [decide_eq_decide]
    omega
  · simp only [Member.myEventsIsTodayOrFuture, Member.dateOnly, Member.toMillis]
    rw [decide_eq_decide]
    omega
  · by_cases hpast : Member.toMillis d < Member.toMillis now
    · simp [Member.cancelRegistration, hfind, hs, heid, heid0, hev, hdate,
        Member.cancelPastCheck, hpast]
    · simp [Member.cancelRegistration, hfind, hs, heid, heid0, hev, hdate,
        Member.cancelPastCheck, hpast]

/-- C7 amended, witnessed on the midnight-versus-01:00 scenario. -/
theorem c7_datecompare_amended_witness :
    Member.myEventsIsPast ⟨100, 0⟩ ⟨100, 3600000⟩ = decide ((100 : Int) < 100) ∧
    Member.myEventsIsTodayOrFuture ⟨100, 0⟩ ⟨100, 3600000⟩ = decide ((100 : Int) ≤ 100) ∧
    ((Member.cancelRegistration db7 "u1" "r1" ⟨100, 3600000⟩).1 = .error .pastEvent ↔
      Member.toMillis ⟨100, 0⟩ < Member.toMillis ⟨100, 3600000⟩) :=
  c7_datecompare_amended ⟨100, 0⟩ ⟨100, 3600000⟩ db7 "u1" "r1" ⟨100, 3600000⟩ reg7
    (by decide) (by decide) "e1" ev7 ⟨100, 0⟩ rfl (by decide) (by decide) rfl

/-! ## C1 : cascade on approving a club deletion request -/

/-- A club with a pending deletion request for the cascade scenarios. -/
def club1 : Admin.Club :=
  { id := "c1", name := "Chess", description := "", category := "board", fee := 0,
    managerEmail := "mgr@club", status := some "active", memberCount := 1,
    deletionRequest := some ⟨"pending", 0, "mgr@club"⟩, createdAt := 0, updatedAt := 0 }

/-- A membership referencing club `c1` through an ObjectId reference. -/
def mem1 : Admin.Membership := ⟨"m1", "u1", Mid.oid "c1", some "active"⟩

/-- State for the cascade counterexample: the club plus one membership
whose `clubId` is stored in ObjectId form. -/
def db1 : Admin.DB := ⟨[club1], [], [], [mem1]⟩

/-- C1 counterexample: approving the deletion of club `c1` succeeds, yet
the membership referencing the club by ObjectId survives the cascade —
the membership delete filter (`{ clubId: clubId }`, admin.js line 622)
matches only the string representation, refuting "no membership
referencing that club's id remains ... regardless of whether dependent
records reference the club by string id, by object-reference id, or by
denormalized club name". -/
theorem c1_counterexample :
    (Admin.approveDeletion db1 "c1").1 = .ok () ∧
    mem1 ∈ (Admin.approveDeletion db1 "c1").2.memberships ∧
    mem1.clubId.raw = "c1" := by
  refine ⟨by rfl, by decide, by decide⟩

/-- C1 amended: after a successful approval no event referencing the club
(by string id, ObjectId reference, or denormalized name) remains, no
registration referencing any of the club's resolved events (either id
form) remains, and no membership referencing the club by its **string**
id remains; memberships holding an ObjectId reference are outside the
delete filter and may survive. -/
theorem c1_cascade_amended (db : Admin.DB) (cid : String) (club : Admin.Club)
    (hfind : db.clubs.find? (fun c => c.id == cid) = some club)
    (dr : Admin.DeletionRequest) (hdr : club.deletionRequest = some dr)
    (hpending : dr.status = "pending") :
    (Admin.approveDeletion db cid).1 = .ok () ∧
    (∀ e ∈ (Admin.approveDeletion db cid).2.events,
      Admin.eventMatchesClub cid club.name e = false) ∧
    (∀ r ∈ (Admin.approveDeletion db cid).2.registrations,
      Admin.regRefsEvent
        ((db.events.filter (Admin.eventMatchesClub cid club.name)).map (·.id)) r = false) ∧
    (∀ m ∈ (Admin.approveDeletion db cid).2.memberships, m.clubId ≠ Mid.str cid) := by
  have keyOk : (Admin.approveDeletion db cid).1 = .ok () := by
    simp [Admin.approveDeletion, hfind, hdr, hpending]
  have keyE : (Admin.approveDeletion db cid).2.events =
      db.events.filter (fun e => !Admin.eventMatchesClub cid club.name e) := by
    simp [Admin.approveDeletion, hfind, hdr, hpending]
  have keyR : (Admin.approveDeletion db cid).2.registrations =
      if ((db.events.filter (Admin.eventMatchesClub cid club.name)).map (·.id)).length > 0
      then db.registrations.filter (fun r => !Admin.regRefsEvent
        ((db.events.filter (Admin.eventMatchesClub cid club.name)).map (·.id)) r)
      else db.registrations := by
    simp [Admin.approveDeletion, hfind, hdr, hpending]
  have keyM : (Admin.approveDeletion db cid).2.memberships =
      db.memberships.filter (fun m => !(m.clubId == Mid.str cid)) := by
    simp [Admin.approveDeletion, hfind, hdr, hpending]
  refine ⟨keyOk, ?_, ?_, ?_⟩
  · intro e he
    rw [keyE] at he
    simpa using (List.mem_filter.mp he).2
  · intro r hr
    rw [keyR] at hr
    by_cases hlen :
        ((db.events.filter (Admin.eventMatchesClub cid club.name)).map (·.id)).length > 0
    · rw [if_pos hlen] at hr
      simpa using (List.mem_filter.mp hr).2
    · have hnil : (db.events.filter (Admin.eventMatchesClub cid club.name)).map (·.id) = [] :=
        List.length_eq_zero.mp (by omega)
      simp [Admin.regRefsEvent, hnil]
  · intro m hm
    rw [keyM] at hm
    simpa using (List.mem_filter.mp hm).2

/-- C1 amended, witnessed on the concrete cascade state `db1`. -/
theorem c1_cascade_amended_witness :
    (Admin.approveDeletion db1 "c1").1 = .ok () ∧
    (∀ e ∈ (Admin.approveDeletion db1 "c1").2.events,
      Admin.eventMatchesClub "c1" club1.name e = false) ∧
    (∀ r ∈ (Admin.approveDeletion db1 "c1").2.registrations,
      Admin.regRefsEvent
        ((db1.events.filter (Admin.eventMatchesClub "c1" club1.name)).map (·.id)) r = false) ∧
    (∀ m ∈ (Admin.approveDeletion db1 "c1").2.memberships, m.clubId ≠ Mid.str "c1") :=
  c1_cascade_amended db1 "c1" club1 (by decide) ⟨"pending", 0, "mgr@club"⟩ rfl rfl

/-! ## C8 : rejecting a club deletion request -/

/-- A club with a pending deletion request for the rejection scenarios. -/
def club8 : Admin.Club :=
  { id := "c8", name := "Go", description := "weekly go nights", category := "board", fee := 5,
    managerEmail := "go@club", status := some "active", memberCount := 2,
    deletionRequest := some ⟨"pending", 3, "go@club"⟩, createdAt := 1, updatedAt := 1 }

/-- State for the rejection scenarios: one club with a pending request. -/
def db8 : Admin.DB := ⟨[club8], [], [], []⟩

/-- C8 counterexample: rejecting the pending deletion request also
rewrites the club's `updatedAt` field (here from 1 to 9), so the
operation does not leave every field other than the deletion-request
marker unchanged. -/
theorem c8_counterexample :
    (Admin.rejectDeletion db8 "c8" 9).1 = .ok () ∧
    (Admin.rejectDeletion db8 "c8" 9).2.clubs.map (·.updatedAt) = [9] ∧
    club8.updatedAt ≠ 9 := by
  refine ⟨by rfl, by rfl, by decide⟩

/-- C8 amended: rejecting a pending deletion request clears the
deletion-request marker **and refreshes the club's `updatedAt`**, leaving
every other club field and every other collection unchanged, and a
subsequent deletion request by the club's manager is then permitted: it
succeeds and stores a fresh pending request. -/
theorem c8_reject_amended (db : Admin.DB) (cid : String) (now now2 : Int)
    (pre post : List Admin.Club) (club : Admin.Club)
    (hsplit : db.clubs = pre ++ club :: post)
    (hpre : ∀ c ∈ pre, c.id ≠ cid) (hid : club.id = cid)
    (dr : Admin.DeletionRequest) (hdr : club.deletionRequest = some dr)
    (hpending : dr.status = "pending") :
    Admin.rejectDeletion db cid now =
      (.ok (), { db with clubs :=
        pre ++ { club with deletionRequest := none, updatedAt := now } :: post }) ∧
    Admin.requestDeletion
      { db with clubs :=
        pre ++ { club with deletionRequest := none, updatedAt := now } :: post }
      cid club.managerEmail now2 =
      (.ok ⟨"pending", now2, club.managerEmail⟩,
       { db with clubs :=
         pre ++ { club with deletionRequest := some ⟨"pending", now2, club.managerEmail⟩,
                            updatedAt := now2 } :: post }) := by
  have hfind : db.clubs.find? (fun c => c.id == cid) = some club := by
    rw [hsplit]
    exact find?_append_cons (fun a ha => by simp [hpre a ha]) (by simp [hid])
  have hupd : updateFirst (fun c => c.id == cid)
      (fun c => { c with deletionRequest := none, updatedAt := now }) db.clubs =
      pre ++ { club with deletionRequest := none, updatedAt := now } :: post := by
    rw [hsplit]
    exact updateFirst_append_cons (fun a ha => by simp [hpre a ha]) (by simp [hid])
  constructor
  · simp [Admin.rejectDeletion, hfind, hdr, hpending, hupd]
  · have hfind2 :
        (pre ++ { club with deletionRequest := none, updatedAt := now } :: post).find?
          (fun c => c.id == cid && c.managerEmail == club.managerEmail) =
          some { club with deletionRequest := none, updatedAt := now } := by
      exact find?_append_cons (fun a ha => by simp [hpre a ha]) (by simp [hid])
    have hupd2 : updateFirst (fun c => c.id == cid)
        (fun c => { c with
          deletionRequest := some ⟨"pending", now2, club.managerEmail⟩, updatedAt := now2 })
        (pre ++ { club with deletionRequest := none, updatedAt := now } :: post) =
        pre ++ { club with deletionRequest := some ⟨"pending", now2, club.managerEmail⟩,
                           updatedAt := now2 } :: post := by
      exact updateFirst_append_cons (fun a ha => by simp [hpre a ha]) (by simp [hid])
    simp [Admin.requestDeletion, hfind2, hupd2]

/-- C8 amended, witnessed on the concrete state `db8`. -/
theorem c8_reject_amended_witness :
    Admin.rejectDeletion db8 "c8" 9 =
      (.ok (), { db8 with clubs :=
        [{ club8 with deletionRequest := none, updatedAt := 9 }] }) ∧
    Admin.requestDeletion
      { db8 with clubs := [{ club8 with deletionRequest := none, updatedAt := 9 }] }
      "c8" club8.managerEmail 11 =
      (.ok ⟨"pending", 11, club8.managerEmail⟩,
       { db8 with clubs :=
         [{ club8 with deletionRequest := some ⟨"pending", 11, club8.managerEmail⟩,
                       updatedAt := 11 }] }) :=
  c8_reject_amended db8 "c8" 9 11 [] [] club8 rfl (by simp) rfl
    ⟨"pending", 3, "go@club"⟩ rfl rfl

/-! ## C3 : paid club-membership confirmation -/

/-- C3: with a retrieved intent whose status is `succeeded`, the
confirmation fails with the mismatch error and leaves the state unchanged
whenever the intent's metadata (clubId, userId or kind) disagrees with
the request; and when the metadata matches, no active/pending membership
exists for the pair, and the club exists, it creates exactly one
membership — `active`, `paymentStatus = paid` — and increments exactly
that club's `memberCount` by exactly 1. -/
theorem c3_confirm_contract (db : Payments.DB) (intent : Payments.ClubIntent)
    (pid cid uid nid : String) (now : Payments.JDate)
    (hpid : pid ≠ "") (hcid : cid ≠ "")
    (hs : intent.status = "succeeded") :
    ((intent.clubId ≠ cid ∨ intent.userId ≠ uid ∨ intent.type ≠ "club_membership") →
      Payments.clubConfirm db intent pid cid uid nid now = (.error .intentMismatch, db)) ∧
    (intent.clubId = cid → intent.userId = uid → intent.type = "club_membership" →
      db.memberships.find? (Payments.dupMemPred uid cid) = none →
      ∀ pre club post, db.clubs = pre ++ club :: post → (∀ c ∈ pre, c.id ≠ cid) →
        club.id = cid →
        Payments.clubConfirm db intent pid cid uid nid now =
          (.ok nid,
           { db with
             memberships := db.memberships ++
               [{ id := nid, userId := uid, clubId := .str cid,
                  status := some "active", paymentStatus := "paid",
                  paymentIntentId := some pid, amount := intent.totalAmount,
                  membershipFee := intent.membershipFee,
                  serviceFee := intent.serviceFee, joinDate := now,
                  expiryDate := some (Payments.addOneMonthJS now),
                  createdAt := now, updatedAt := now }],
             clubs := pre ++ { club with memberCount := club.memberCount + 1 } :: post })) := by
  constructor
  · intro hmm
    rcases hmm with h | h | h <;>
      simp [Payments.clubConfirm, hpid, hcid, hs, h]
  · intro h1 h2 h3 hdup pre club post hsplit hpre hcl
    have hfind : db.clubs.find? (fun c => c.id == cid) = some club := by
      rw [hsplit]
      exact find?_append_cons (fun a ha => by simp [hpre a ha]) (by simp [hcl])
    have hupd : updateFirst (fun c => c.id == cid)
        (fun c => { c with memberCount := c.memberCount + 1 }) db.clubs =
        pre ++ { club with memberCount := club.memberCount + 1 } :: post := by
      rw [hsplit]
      exact updateFirst_append_cons (fun a ha => by simp [hpre a ha]) (by simp [hcl])
    simp [Payments.clubConfirm, hpid, hcid, hs, h1, h2, h3, hdup, hfind, hupd]

/-- A paid active club for the confirmation scenarios. -/
def club3 : Payments.Club := ⟨"c3", "Robotics", some "active", some 5, 7⟩

/-- State for the confirmation scenarios: one paid club, no memberships. -/
def db3 : Payments.DB := ⟨[club3], [], [], []⟩

/-- A succeeded intent whose metadata matches user `u3` joining `c3`. -/
def intent3 : Payments.ClubIntent := ⟨"succeeded", "c3", "u3", "club_membership", 5, 2, 7⟩

/-- C3 witnessed on a concrete input: confirming the matching intent
creates the single active paid membership and bumps `memberCount` from
7 to 8. -/
theorem c3_confirm_contract_witness :
    Payments.clubConfirm db3 intent3 "pi3" "c3" "u3" "n3" ⟨2025, 4, 10⟩ =
      (.ok "n3",
       { db3 with
         memberships :=
           [{ id := "n3", userId := "u3", clubId := .str "c3",
              status := some "active", paymentStatus := "paid",
              paymentIntentId := some "pi3", amount := intent3.totalAmount,
              membershipFee := intent3.membershipFee,
              serviceFee := intent3.serviceFee, joinDate := ⟨2025, 4, 10⟩,
              expiryDate := some (Payments.addOneMonthJS ⟨2025, 4, 10⟩),
              createdAt := ⟨2025, 4, 10⟩, updatedAt := ⟨2025, 4, 10⟩ }],
         clubs := [{ club3 with memberCount := club3.memberCount + 1 }] }) :=
  (c3_confirm_contract db3 intent3 "pi3" "c3" "u3" "n3" ⟨2025, 4, 10⟩
    (by decide) (by decide) rfl).2 rfl rfl rfl rfl [] club3 [] rfl (by simp) rfl

/-! ## C5 : event capacity conflict on the free path -/

/-- C5: for an available free event with a nonzero capacity `N`, a
free-registration attempt by a not-yet-registered user finds the event
full once at least `N` `registered` registrations exist: it fails with
the event-full conflict and inserts nothing. -/
theorem c5_capacity_conflict (db : Payments.DB) (eid uid nid : String)
    (now : Payments.JDate) (event : Payments.Event) (N : Nat)
    (heid : eid ≠ "")
    (hev : db.events.find? (fun e => e.id == eid) = some event)
    (hnc : event.status ≠ some "cancelled")
    (hfree : ¬ 0 < Payments.effectiveEventFee event)
    (hnd : db.registrations.find?
      (fun r => r.userId == uid && r.eventId == eid && r.status == "registered") = none)
    (hcap : event.maxAttendees = some N) (hN : N ≠ 0)
    (hfull : N ≤ Payments.countRegistered db eid) :
    Payments.registerFree db eid uid nid now = (.error .eventFull, db) := by
  have hcf : Payments.capacityFull db event eid = true := by
    simp [Payments.capacityFull, hcap, hN, hfull]
  simp [Payments.registerFree, heid, hev, hnc, hfree, hnd, hcf]

/-- A free event with capacity 1 for the capacity scenarios. -/
def ev5 : Payments.Event := ⟨"e5", some "active", some 0, none, none, none, some 1⟩

/-- The registration that already fills `e5`. -/
def reg5 : Payments.Registration :=
  { id := "r5", userId := "u5", eventId := "e5", status := "registered",
    paymentStatus := "free", paymentIntentId := none, amount := 0, eventFee := 0,
    serviceFee := 0, registrationDate := ⟨2025, 0, 1⟩, createdAt := ⟨2025, 0, 1⟩,
    updatedAt := ⟨2025, 0, 1⟩ }

/-- State for the capacity scenarios: `e5` is at capacity. -/
def db5 : Payments.DB := ⟨[], [ev5], [], [reg5]⟩

/-- C5 witnessed on a concrete input: a second user's attempt on the full
event fails with the event-full conflict and changes nothing. -/
theorem c5_capacity_conflict_witness :
    Payments.registerFree db5 "e5" "u6" "n6" ⟨2025, 0, 2⟩ = (.error .eventFull, db5) :=
  c5_capacity_conflict db5 "e5" "u6" "n6" ⟨2025, 0, 2⟩ ev5 1 (by decide) rfl
    (by decide) (by decide) rfl rfl (by decide) (by decide)

/-! ## C4 : duplicate-membership protection across both creation paths -/

/-- A paid active club for the duplicate-membership counterexample. -/
def club4 : Payments.Club := ⟨"c4", "Paid Club", some "active", some 5, 3⟩

/-- The pair's existing active paid membership of `c4`. -/
def mem4 : Payments.Membership :=
  { id := "m4", userId := "u4", clubId := .str "c4", status := some "active",
    paymentStatus := "paid", paymentIntentId := some "pi4", amount := 7,
    membershipFee := 5, serviceFee := 2, joinDate := ⟨2025, 0, 1⟩,
    expiryDate := some ⟨2025, 1, 1⟩, createdAt := ⟨2025, 0, 1⟩,
    updatedAt := ⟨2025, 0, 1⟩ }

/-- State for the duplicate-membership counterexample. -/
def db4 : Payments.DB := ⟨[club4], [], [mem4], []⟩

/-- C4 counterexample: user `u4` holds an active membership of the paid
club `c4`, yet a further attempt through the free path fails with the
wrong-path error — the fee gate fires before the duplicate check — and
not with a conflict error, refuting "any further attempt ... via the free
path or the paid confirmation path fails with a conflict error" (no
second record is inserted, though). -/
theorem c4_counterexample :
    mem4 ∈ db4.memberships ∧ mem4.userId = "u4" ∧ mem4.clubId = .str "c4" ∧
    mem4.status = some "active" ∧
    Payments.clubRegisterFree db4 "c4" "u4" "n4" ⟨2025, 0, 15⟩ =
      (.error .clubNotFree, db4) ∧
    Payments.PErr.clubNotFree ≠ Payments.PErr.alreadyMember := by
  refine ⟨by decide, by decide, by decide, by decide, by rfl, by decide⟩

/-- C4 amended: while a membership for the (user, club) pair is `active`
or `pending`, any further free-path attempt fails and inserts no second
record; the failure is the already-a-member conflict exactly when the
free path's own gates pass (club found, available, fee zero) — a
free-path attempt on a paid club fails with the wrong-path error before
the duplicate check — and any further paid confirmation with a succeeded,
metadata-matching intent fails with the membership-exists conflict. -/
theorem c4_duplicate_amended (db : Payments.DB) (cid uid nid pid : String)
    (now : Payments.JDate) (intent : Payments.ClubIntent) (m : Payments.Membership)
    (hm : m ∈ db.memberships) (hmu : m.userId = uid) (hmc : m.clubId = .str cid)
    (hms : m.status = some "active" ∨ m.status = some "pending")
    (hcid : cid ≠ "") (hpid : pid ≠ "") :
    ((Payments.clubRegisterFree db cid uid nid now).2 = db ∧
      ∃ err, (Payments.clubRegisterFree db cid uid nid now).1 = .error err) ∧
    (∀ club, db.clubs.find? (fun c => c.id == cid) = some club →
      Payments.clubUnavailable club = false → ¬ 0 < Payments.clubFee club →
      Payments.clubRegisterFree db cid uid nid now = (.error .alreadyMember, db)) ∧
    (intent.status = "succeeded" → intent.clubId = cid → intent.userId = uid →
      intent.type = "club_membership" →
      Payments.clubConfirm db intent pid cid uid nid now =
        (.error .membershipExists, db)) := by
  have hpredm : Payments.dupMemPred uid cid m = true := by
    rcases hms with h | h <;> simp [Payments.dupMemPred, hmu, hmc, h]
  have hdup : ∃ m', db.memberships.find? (Payments.dupMemPred uid cid) = some m' := by
    rw [← Option.isSome_iff_exists]
    exact List.find?_isSome.mpr ⟨m, hm, hpredm⟩
  obtain ⟨m', hm'⟩ := hdup
  refine ⟨?_, ?_, ?_⟩
  · simp only [Payments.clubRegisterFree, if_neg hcid]
    cases hfc : db.clubs.find? (fun c => c.id == cid) with
    | none => simp
    | some club =>
      by_cases hu : Payments.clubUnavailable club
      · simp [hu]
      · by_cases hfee : 0 < Payments.clubFee club
        · simp [hu, hfee]
        · simp [hu, hfee, hm']
  · intro club hfc hu hfee
    simp [Payments.clubRegisterFree, hcid, hfc, hu, hfee, hm']
  · intro h0 h1 h2 h3
    simp [Payments.clubConfirm, hpid, hcid, h0, h1, h2, h3, hm']

/-- A free active club holding an existing membership of user `u4f`. -/
def club4f : Payments.Club := ⟨"c4f", "Free Club", some "active", some 0, 3⟩

/-- The pair's existing active free membership of `c4f`. -/
def mem4f : Payments.Membership :=
  { id := "m4f", userId := "u4f", clubId := .str "c4f", status := some "active",
    paymentStatus := "free", paymentIntentId := none, amount := 0,
    membershipFee := 0, serviceFee := 0, joinDate := ⟨2025, 0, 1⟩,
    expiryDate := none, createdAt := ⟨2025, 0, 1⟩, updatedAt := ⟨2025, 0, 1⟩ }

/-- State for the duplicate-membership witness. -/
def db4f : Payments.DB := ⟨[club4f], [], [mem4f], []⟩

/-- C4 amended, witnessed on a free club: the second free join fails with
the already-a-member conflict and changes nothing. -/
theorem c4_duplicate_amended_witness :
    Payments.clubRegisterFree db4f "c4f" "u4f" "n4f" ⟨2025, 0, 20⟩ =
      (.error .alreadyMember, db4f) :=
  (c4_duplicate_amended db4f "c4f" "u4f" "n4f" "pi" ⟨2025, 0, 20⟩
    ⟨"succeeded", "c4f", "u4f", "club_membership", 0, 0, 0⟩ mem4f
    (by decide) rfl rfl (Or.inl rfl) (by decide) (by decide)).2.1 club4f rfl rfl
    (by decide)

/-! ## C9 : expiry date of paid memberships -/

/-- A paid active club for the expiry scenarios. -/
def club9 : Payments.Club := ⟨"c9", "January Club", some "active", some 5, 0⟩

/-- State for the expiry scenarios: one paid club, no memberships. -/
def db9 : Payments.DB := ⟨[club9], [], [], []⟩

/-- A succeeded intent whose metadata matches user `u9` joining `c9`. -/
def intent9 : Payments.ClubIntent := ⟨"succeeded", "c9", "u9", "club_membership", 5, 2, 7⟩

/-- C9 counterexample: confirming on January 31, 2025 creates a
membership whose `joinDate` is January 31 but whose `expiryDate` is
March 3 — `setMonth(getMonth() + 1)` rolls the nonexistent February 31
into March, so the expiry is not "exactly one calendar month after" the
join date (it does not even land in the next calendar month). -/
theorem c9_counterexample :
    (Payments.clubConfirm db9 intent9 "pi9" "c9" "u9" "m9" ⟨2025, 0, 31⟩).2.memberships.map
      (fun m => (m.joinDate, m.expiryDate)) = [(⟨2025, 0, 31⟩, some ⟨2025, 2, 3⟩)] ∧
    (⟨2025, 2, 3⟩ : Payments.JDate).month ≠ (⟨2025, 0, 31⟩ : Payments.JDate).month + 1 := by
  refine ⟨by rfl, by decide⟩

/-- C9 amended: every membership created by the paid confirmation path
has `joinDate = now` and a non-null `expiryDate = addOneMonthJS now`,
i.e. the join date advanced by JS `setMonth(+1)` arithmetic: the month
field advances by one and the day of month is preserved whenever it is
valid in the target month, while excess days roll over into the
following month.  The spec states no such one-month paid duration. -/
theorem c9_expiry_amended (db : Payments.DB) (intent : Payments.ClubIntent)
    (pid cid uid nid : String) (now : Payments.JDate) (club : Payments.Club)
    (hpid : pid ≠ "") (hcid : cid ≠ "")
    (hs : intent.status = "succeeded") (h1 : intent.clubId = cid)
    (h2 : intent.userId = uid) (h3 : intent.type = "club_membership")
    (hdup : db.memberships.find? (Payments.dupMemPred uid cid) = none)
    (hfc : db.clubs.find? (fun c => c.id == cid) = some club) :
    (Payments.clubConfirm db intent pid cid uid nid now).2.memberships =
      db.memberships ++
        [{ id := nid, userId := uid, clubId := .str cid,
           status := some "active", paymentStatus := "paid",
           paymentIntentId := some pid, amount := intent.totalAmount,
           membershipFee := intent.membershipFee,
           serviceFee := intent.serviceFee, joinDate := now,
           expiryDate := some (Payments.addOneMonthJS now),
           createdAt := now, updatedAt := now }] ∧
    (∀ dte : Payments.JDate, dte.month ≠ 11 →
      dte.day ≤ Payments.daysInMonth dte.year (dte.month + 1) →
      Payments.addOneMonthJS dte = ⟨dte.year, dte.month + 1, dte.day⟩) := by
  constructor
  · simp [Payments.clubConfirm, hpid, hcid, hs, h1, h2, h3, hdup, hfc]
  · intro dte h11 hday
    simp [Payments.addOneMonthJS, h11, hday]

/-- C9 amended, witnessed on April 10, 2025 (month index 3): the created
membership expires on May 10, 2025. -/
theorem c9_expiry_amended_witness :
    (Payments.clubConfirm db9 intent9 "pi9" "c9" "u9" "m9" ⟨2025, 3, 10⟩).2.memberships =
      [{ id := "m9", userId := "u9", clubId := .str "c9",
         status := some "active", paymentStatus := "paid",
         paymentIntentId := some "pi9", amount := intent9.totalAmount,
         membershipFee := intent9.membershipFee,
         serviceFee := intent9.serviceFee, joinDate := ⟨2025, 3, 10⟩,
         expiryDate := some (Payments.addOneMonthJS ⟨2025, 3, 10⟩),
         createdAt := ⟨2025, 3, 10⟩, updatedAt := ⟨2025, 3, 10⟩ }] ∧
    Payments.addOneMonthJS ⟨2025, 3, 10⟩ = ⟨2025, 4, 10⟩ := by
  have h := c9_expiry_amended db9 intent9 "pi9" "c9" "u9" "m9" ⟨2025, 3, 10⟩ club9
    (by decide) (by decide) rfl rfl rfl rfl rfl rfl
  exact ⟨h.1, h.2 ⟨2025, 3, 10⟩ (by decide) (by decide)⟩

/-! ## C10 : capacity gate skipped for absent/null/zero maxAttendees -/

/-- C10: for an available event whose `maxAttendees` is absent or zero,
the capacity check is skipped on both the free-registration path — which
then inserts the registration regardless of the current registered count
— and the intent-creation path, which proceeds to the intent request;
the gate fires (event-full on both paths) only when `maxAttendees` is a
nonzero `N` and at least `N` registered registrations exist. -/
theorem c10_capacity_skip (db : Payments.DB) (eid uid nid : String)
    (now : Payments.JDate) (event : Payments.Event) (N : Nat)
    (heid : eid ≠ "")
    (hev : db.events.find? (fun e => e.id == eid) = some event)
    (hnc : event.status ≠ some "cancelled")
    (hnd : db.registrations.find?
      (fun r => r.userId == uid && r.eventId == eid && r.status == "registered") = none) :
    (event.maxAttendees = none ∨ event.maxAttendees = some 0 →
      (¬ 0 < Payments.effectiveEventFee event →
        Payments.registerFree db eid uid nid now =
          (.ok nid, { db with registrations := db.registrations ++
            [{ id := nid, userId := uid, eventId := eid,
               status := "registered", paymentStatus := "free",
               paymentIntentId := none, amount := 0, eventFee := 0,
               serviceFee := 0, registrationDate := now,
               createdAt := now, updatedAt := now }] })) ∧
      (0 < Payments.effectiveEventFee event →
        Payments.createIntent db eid uid =
          .ok { eventId := eid, userId := uid,
                eventFee := Payments.effectiveEventFee event,
                serviceFee := Payments.calculateServiceFee (Payments.effectiveEventFee event),
                totalAmount := Payments.effectiveEventFee event +
                  Payments.calculateServiceFee (Payments.effectiveEventFee event) })) ∧
    (event.maxAttendees = some N → N ≠ 0 → N ≤ Payments.countRegistered db eid →
      (¬ 0 < Payments.effectiveEventFee event →
        Payments.registerFree db eid uid nid now = (.error .eventFull, db)) ∧
      Payments.createIntent db eid uid = .error .eventFull) := by
  constructor
  · intro hcap
    have hcf : Payments.capacityFull db event eid = false := by
      rcases hcap with h | h <;> simp [Payments.capacityFull, h]
    constructor
    · intro hfree
      simp [Payments.registerFree, heid, hev, hnc, hfree, hnd, hcf]
    · intro hpaid
      have hnle : ¬ Payments.effectiveEventFee event ≤ 0 := by
        exact not_le.mpr hpaid
      simp [Payments.createIntent, heid, hev, hnc, hnd, hcf, hnle]
  · intro hcap hN hfull
    have hcf : Payments.capacityFull db event eid = true := by
      simp [Payments.capacityFull, hcap, hN, hfull]
    constructor
    · intro hfree
      simp [Payments.registerFree, heid, hev, hnc, hfree, hnd, hcf]
    · simp [Payments.createIntent, heid, hev, hnc, hnd, hcf]

/-- A free active event with `maxAttendees = 0` and two registered
registrations already present. -/
def ev10 : Payments.Event := ⟨"e10", some "active", some 0, none, none, none, some 0⟩

/-- First existing registration for `e10`. -/
def reg10a : Payments.Registration :=
  { id := "ra", userId := "ua", eventId := "e10", status := "registered",
    paymentStatus := "free", paymentIntentId := none, amount := 0, eventFee := 0,
    serviceFee := 0, registrationDate := ⟨2025, 0, 1⟩, createdAt := ⟨2025, 0, 1⟩,
    updatedAt := ⟨2025, 0, 1⟩ }

/-- Second existing registration for `e10`. -/
def reg10b : Payments.Registration :=
  { reg10a with id := "rb", userId := "ub" }

/-- State for the capacity-skip witness: `e10` already has two
registered registrations. -/
def db10 : Payments.DB := ⟨[], [ev10], [], [reg10a, reg10b]⟩

/-- C10 witnessed on a concrete input: with `maxAttendees = 0` the free
registration succeeds although two registered registrations exist. -/
theorem c10_capacity_skip_witness :
    Payments.registerFree db10 "e10" "uc" "nc" ⟨2025, 0, 3⟩ =
      (.ok "nc", { db10 with registrations := db10.registrations ++
        [{ id := "nc", userId := "uc", eventId := "e10",
           status := "registered", paymentStatus := "free",
           paymentIntentId := none, amount := 0, eventFee := 0,
           serviceFee := 0, registrationDate := ⟨2025, 0, 3⟩,
           createdAt := ⟨2025, 0, 3⟩, updatedAt := ⟨2025, 0, 3⟩ }] }) :=
  ((c10_capacity_skip db10 "e10" "uc" "nc" ⟨2025, 0, 3⟩ ev10 0 (by decide) rfl
    (by decide) rfl).1 (Or.inr rfl)).1 (by decide)

end ClubSphere
